import Mathlib

/-!
Verification of the rocket-recovery trajectory engine.

The numeric source code (TypeScript) is embedded shallowly over the real
numbers: every JavaScript arithmetic operation is modelled by the
corresponding exact real operation, `Math.sqrt`/`Math.sin`/`Math.pow` by
`Real.sqrt`/`Real.sin`/`Real.rpow`, and the JavaScript remainder operator
`%` by `jsMod` below (remainder with the sign of the dividend).
Optional parameters become `Option ℝ`.  Loops with an iteration cap become
fuel-indexed recursions where the fuel is exactly the cap.
-/

noncomputable section

open Real

/-- JavaScript `Math.trunc`: rounds towards zero. -/
def jsTrunc (x : ℝ) : ℝ := if 0 ≤ x then (⌊x⌋ : ℝ) else (⌈x⌉ : ℝ)

/-- The JavaScript remainder operator `a % b`: `a - b * trunc (a / b)`,
so the result carries the sign of the dividend. -/
def jsMod (a b : ℝ) : ℝ := a - b * jsTrunc (a / b)

/-- Mathematical modulus `a - b * ⌊a / b⌋`, used to state spec sentences
that say "mod". It agrees with `jsMod` on nonnegative dividends. -/
def mathMod (a b : ℝ) : ℝ := a - b * (⌊a / b⌋ : ℝ)

/-! ## Source: `src/physics/atmosphere.ts` -/

/-- `PHYSICAL_CONSTANTS` object from the source. -/
structure PhysicalConstants where
  g0 : ℝ
  R : ℝ
  M : ℝ
  Ru : ℝ

def PHYSICAL_CONSTANTS : PhysicalConstants :=
  { g0 := 9.80665, R := 287.05287, M := 0.0289644, Ru := 8.31447 }

/-- `SEA_LEVEL_STANDARD` object from the source. -/
structure SeaLevelStandard where
  temperature : ℝ
  pressure : ℝ
  density : ℝ

def SEA_LEVEL_STANDARD : SeaLevelStandard :=
  { temperature := 288.15, pressure := 101325, density := 1.225 }

def LAPSE_RATE : ℝ := -0.0065

/-- `getTemperature(altitude, surfaceTemp?)`. -/
def getTemperature (altitude : ℝ) (surfaceTemp : Option ℝ) : ℝ :=
  let T0 : ℝ :=
    match surfaceTemp with
    | some t => t + 273.15
    | none => SEA_LEVEL_STANDARD.temperature
  if altitude < 11000 then T0 + LAPSE_RATE * altitude else 216.65

/-- The tropospheric branch of `getPressure` (the barometric power-law
formula exactly as written in the source, including the exponent
`g0 / (R * LAPSE_RATE)`). -/
def troposphericPressure (altitude : ℝ) (surfacePressure : Option ℝ) : ℝ :=
  let P0 : ℝ :=
    match surfacePressure with
    | some p => p * 100
    | none => SEA_LEVEL_STANDARD.pressure
  let T0 : ℝ := SEA_LEVEL_STANDARD.temperature
  let exponent : ℝ := PHYSICAL_CONSTANTS.g0 / (PHYSICAL_CONSTANTS.R * LAPSE_RATE)
  P0 * (1 + LAPSE_RATE * altitude / T0) ^ exponent

/-- `getPressure(altitude, surfacePressure?)`.  Below 11 km this is the
source formula verbatim.  (At and above 11 km the source calls
`getPressure(11000, ...)`, which re-enters the same branch and never
terminates; the claims under verification only use the `< 11000` branch,
and we close that branch with the value the recursive call was plainly
meant to produce, the tropospheric formula at 11000.) -/
def getPressure (altitude : ℝ) (surfacePressure : Option ℝ) : ℝ :=
  if altitude < 11000 then troposphericPressure altitude surfacePressure
  else
    troposphericPressure 11000 surfacePressure *
      Real.exp (-PHYSICAL_CONSTANTS.g0 * (altitude - 11000) / (PHYSICAL_CONSTANTS.R * 216.65))

/-- `getDensity(altitude, surfaceTemp?, surfacePressure?)`: ideal gas law
from the computed temperature and pressure. -/
def getDensity (altitude : ℝ) (surfaceTemp surfacePressure : Option ℝ) : ℝ :=
  getPressure altitude surfacePressure /
    (PHYSICAL_CONSTANTS.R * getTemperature altitude surfaceTemp)

/-- `getGravity(altitude)`: inverse-square falloff with Earth radius. -/
def getGravity (altitude : ℝ) : ℝ :=
  PHYSICAL_CONSTANTS.g0 * (6371000 / (6371000 + altitude)) ^ (2 : ℕ)

/-! ## Source: `src/physics/aerodynamics.ts` -/

/-- `calculateDrag(velocity, cd, referenceArea, altitude, surfaceTemp?, surfacePressure?)`. -/
def calculateDrag (velocity cd referenceArea altitude : ℝ)
    (surfaceTemp surfacePressure : Option ℝ) : ℝ :=
  let density := getDensity altitude surfaceTemp surfacePressure
  0.5 * density * velocity * velocity * cd * referenceArea

/-! ## Data model (`src/types/*.ts`) -/

structure Vec3 where
  x : ℝ
  y : ℝ
  z : ℝ

inductive FlightPhase
  | thrust
  | coast
  | descent
deriving DecidableEq

structure TrajectoryPoint where
  time : ℝ
  position : Vec3
  velocity : Vec3
  phase : FlightPhase

structure RocketParameters where
  dryMass : ℝ
  propellantMass : ℝ
  bodyDiameter : ℝ
  bodyLength : ℝ
  dragCoefficient : ℝ
  motorTotalImpulse : ℝ
  motorBurnTime : ℝ
  motorDelayTime : ℝ

inductive RecoveryMethod
  | parachute
  | streamer
  | freefall
deriving DecidableEq

/-- `RecoveryParameters` from `src/types/recovery.ts`: the per-method fields
are optional in the source and defaulted with `??` at use sites. -/
structure RecoveryParameters where
  method : RecoveryMethod
  parachuteDiameter : Option ℝ
  parachuteCd : Option ℝ
  streamerArea : Option ℝ
  streamerCd : Option ℝ

structure Coordinates where
  latitude : ℝ
  longitude : ℝ

structure LaunchSite where
  latitude : ℝ
  longitude : ℝ
  elevation : ℝ
  launchAngle : ℝ
  launchAzimuth : ℝ

structure WindLayer where
  altitude : ℝ
  windSpeed : ℝ
  windDirection : ℝ

inductive WeatherSource
  | manual
  | api
deriving DecidableEq

/-- `WeatherData` from `src/types/weather.ts`; the optional capture
timestamp is metadata never read by the engine and is omitted. -/
structure WeatherData where
  surfaceWindSpeed : ℝ
  surfaceWindDirection : ℝ
  surfaceTemperature : ℝ
  surfacePressure : ℝ
  windLayers : Option (List WindLayer)
  source : WeatherSource

structure UncertaintyEllipse where
  center : Coordinates
  semiMajorAxis : ℝ
  semiMinorAxis : ℝ
  rotation : ℝ
  confidence : ℝ

structure FlightStats where
  maxAltitude : ℝ
  apogeeTime : ℝ
  totalFlightTime : ℝ
  maxVelocity : ℝ
  landingVelocity : ℝ
  horizontalDistance : ℝ
  landingBearing : ℝ

structure TrajectoryResult where
  trajectoryPoints : List TrajectoryPoint
  predictedLanding : Coordinates
  uncertaintyEllipse : UncertaintyEllipse
  stats : FlightStats
  launchSite : Coordinates

/-! ## Source: `src/physics/windEffect.ts` -/

/-- The `{speed, direction}` record returned by `getWindAtAltitude`. -/
structure WindSample where
  speed : ℝ
  direction : ℝ

structure WindUncertainty where
  speedUncertainty : ℝ
  directionUncertainty : ℝ

def DEFAULT_WIND_UNCERTAINTY : WindUncertainty :=
  { speedUncertainty := 0.25, directionUncertainty := 15 }

/-- The record returned by `calculateUncertaintyEllipse`. -/
structure EllipseParams where
  semiMajor : ℝ
  semiMinor : ℝ
  rotation : ℝ

/-- `calculateUncertaintyEllipse(nominalDrift, windDirection, uncertainty)`. -/
def calculateUncertaintyEllipse (nominalDrift windDirection : ℝ)
    (uncertainty : WindUncertainty) : EllipseParams :=
  let semiMajor := nominalDrift * uncertainty.speedUncertainty
  let dirUncertaintyRad := uncertainty.directionUncertainty * π / 180
  let semiMinor := nominalDrift * Real.sin dirUncertaintyRad
  let rotation := jsMod (windDirection + 180) 360
  { semiMajor := max semiMajor 10, semiMinor := max semiMinor 5, rotation := rotation }

/-- The in-between-layers branch of the layered profile: linear speed
interpolation and direction interpolation with the sequential ±360
wrap adjustment, exactly as in the source. -/
def interpolateSegment (lower upper : WindLayer) (altitude : ℝ) : WindSample :=
  let ratio := (altitude - lower.altitude) / (upper.altitude - lower.altitude)
  let speed := lower.windSpeed + ratio * (upper.windSpeed - lower.windSpeed)
  let d0 := upper.windDirection - lower.windDirection
  let d1 := if d0 > 180 then d0 - 360 else d0
  let d2 := if d1 < -180 then d1 + 360 else d1
  let direction := jsMod (lower.windDirection + ratio * d2 + 360) 360
  { speed := speed, direction := direction }

/-- The scan `for (let i = 0; i < layers.length - 1; i++)` of the layered
profile: the first adjacent pair bracketing the query altitude. -/
def findSegment : List WindLayer → ℝ → Option (WindLayer × WindLayer)
  | lower :: upper :: rest, altitude =>
    if lower.altitude ≤ altitude ∧ altitude ≤ upper.altitude then some (lower, upper)
    else findSegment (upper :: rest) altitude
  | _, _ => none

/-- The `getWindAtAltitude` closure of `createLayeredWindProfile`, applied
to the sorted layer list. -/
def layeredGetWind (surfaceWindSpeed surfaceWindDirection : ℝ)
    (layers : List WindLayer) (altitude : ℝ) : WindSample :=
  match layers with
  | [] => { speed := surfaceWindSpeed, direction := surfaceWindDirection }
  | first :: rest =>
    if altitude ≤ first.altitude then
      { speed := first.windSpeed, direction := first.windDirection }
    else
      let top := (first :: rest).getLast (by simp)
      if altitude ≥ top.altitude then
        { speed := top.windSpeed, direction := top.windDirection }
      else
        match findSegment (first :: rest) altitude with
        | some (lower, upper) => interpolateSegment lower upper altitude
        | Option.none => { speed := surfaceWindSpeed, direction := surfaceWindDirection }

/-- `createLayeredWindProfile(surfaceWindSpeed, surfaceWindDirection,
windLayers?)`.  The JavaScript `Array.prototype.sort` with comparator
`a.altitude - b.altitude` is a stable ascending sort, modelled by
`List.insertionSort`. -/
def createLayeredWindProfile (surfaceWindSpeed surfaceWindDirection : ℝ)
    (windLayers : Option (List WindLayer)) : ℝ → WindSample :=
  match windLayers with
  | Option.none => fun _ => { speed := surfaceWindSpeed, direction := surfaceWindDirection }
  | some wls =>
    if wls.isEmpty then fun _ => { speed := surfaceWindSpeed, direction := surfaceWindDirection }
    else
      let layers := List.insertionSort (fun a b => a.altitude ≤ b.altitude)
        ({ altitude := 0, windSpeed := surfaceWindSpeed,
           windDirection := surfaceWindDirection } :: wls)
      fun altitude => layeredGetWind surfaceWindSpeed surfaceWindDirection layers altitude

/-- `createWindProfileFromWeather(weather)`. -/
def createWindProfileFromWeather (weather : WeatherData) : ℝ → WindSample :=
  createLayeredWindProfile weather.surfaceWindSpeed weather.surfaceWindDirection
    weather.windLayers

/-! ## Source: `src/physics/ballistics.ts` -/

structure AscentInput where
  rocket : RocketParameters
  launchAngle : ℝ
  launchAzimuth : ℝ
  launchElevation : ℝ
  windSpeed : ℝ
  windDirection : ℝ
  surfaceTemp : Option ℝ
  surfacePressure : Option ℝ
  timeStep : Option ℝ

structure Apogee where
  time : ℝ
  altitude : ℝ
  position : Vec3

structure AscentResult where
  trajectoryPoints : List TrajectoryPoint
  apogee : Apogee
  maxVelocity : ℝ
  burnoutAltitude : ℝ
  burnoutVelocity : ℝ

/-- `getWindComponents(windSpeed, windDirection)` (identical local helper
in `ballistics.ts` and `parachute.ts`): converts a meteorological "from"
direction to a velocity vector (east, north). -/
def getWindComponents (windSpeed windDirection : ℝ) : ℝ × ℝ :=
  let windTo := jsMod (windDirection + 180) 360
  let windRad := windTo * π / 180
  (windSpeed * Real.sin windRad, windSpeed * Real.cos windRad)

/-- Loop-invariant data of `calculateAscent`, computed before its
`while` loop. -/
structure AscentCtx where
  input : AscentInput
  timeStep : ℝ
  wx : ℝ
  wy : ℝ
  initialVx : ℝ
  initialVy : ℝ
  initialVz : ℝ
  averageThrust : ℝ
  referenceArea : ℝ
  massFlowRate : ℝ

/-- Mutable state of the `calculateAscent` loop. -/
structure AscentState where
  x : ℝ
  y : ℝ
  z : ℝ
  vx : ℝ
  vy : ℝ
  vz : ℝ
  t : ℝ
  mass : ℝ
  maxVelocity : ℝ
  burnoutAltitude : ℝ
  burnoutVelocity : ℝ
  points : List TrajectoryPoint

/-- The ascent point-sampling test
`Math.abs(t % 0.1) < timeStep / 2 || t === 0`. -/
def ascentSampleCond (timeStep t : ℝ) : Prop :=
  |jsMod t 0.1| < timeStep / 2 ∨ t = 0

instance (timeStep t : ℝ) : Decidable (ascentSampleCond timeStep t) := by
  unfold ascentSampleCond
  infer_instance

/-- The trajectory point recorded by an ascent iteration:
`phase = isBurning ? 'thrust' : 'coast'`. -/
def mkAscentPoint (burnTime : ℝ) (st : AscentState) : TrajectoryPoint :=
  { time := st.t, position := ⟨st.x, st.y, st.z⟩,
    velocity := ⟨st.vx, st.vy, st.vz⟩,
    phase := if st.t < burnTime then FlightPhase.thrust else FlightPhase.coast }

/-- The part of an ascent iteration that runs before the apogee break:
the `maxVelocity` update and the conditional point recording. -/
def ascentObserve (ctx : AscentCtx) (st : AscentState) : AscentState :=
  let velocity := Real.sqrt (st.vx * st.vx + st.vy * st.vy + st.vz * st.vz)
  let st1 := { st with maxVelocity := max st.maxVelocity velocity }
  if ascentSampleCond ctx.timeStep st.t then
    { st1 with points := st1.points ++ [mkAscentPoint ctx.input.rocket.motorBurnTime st] }
  else st1

/-- The physics part of an ascent iteration (everything after the apogee
break up to `iteration++`). -/
def ascentPhysics (ctx : AscentCtx) (st : AscentState) : AscentState :=
  let velocity := Real.sqrt (st.vx * st.vx + st.vy * st.vy + st.vz * st.vz)
  let vxRel := st.vx - ctx.wx
  let vyRel := st.vy - ctx.wy
  let vzRel := st.vz
  let velocityRel := Real.sqrt (vxRel * vxRel + vyRel * vyRel + vzRel * vzRel)
  let isBurning := st.t < ctx.input.rocket.motorBurnTime
  let g := getGravity st.z
  let drag := if velocityRel > 0.1 then
      calculateDrag velocityRel ctx.input.rocket.dragCoefficient ctx.referenceArea st.z
        ctx.input.surfaceTemp ctx.input.surfacePressure
    else 0
  let dragX := if velocityRel > 0.1 then -drag * vxRel / velocityRel else 0
  let dragY := if velocityRel > 0.1 then -drag * vyRel / velocityRel else 0
  let dragZ := if velocityRel > 0.1 then -drag * vzRel / velocityRel else 0
  let thrustX := if isBurning then
      (if velocity > 0.1 then ctx.averageThrust * st.vx / velocity
       else ctx.averageThrust * ctx.initialVx) else 0
  let thrustY := if isBurning then
      (if velocity > 0.1 then ctx.averageThrust * st.vy / velocity
       else ctx.averageThrust * ctx.initialVy) else 0
  let thrustZ := if isBurning then
      (if velocity > 0.1 then ctx.averageThrust * st.vz / velocity
       else ctx.averageThrust * ctx.initialVz) else 0
  let mass1 := if isBurning then st.mass - ctx.massFlowRate * ctx.timeStep else st.mass
  let captureBurnout := (¬ isBurning) ∧ st.burnoutAltitude = 0
  let burnoutAltitude1 :=
    if captureBurnout then st.z - ctx.input.launchElevation else st.burnoutAltitude
  let burnoutVelocity1 := if captureBurnout then velocity else st.burnoutVelocity
  let ax := (thrustX + dragX) / mass1
  let ay := (thrustY + dragY) / mass1
  let az := (thrustZ + dragZ) / mass1 - g
  let vx1 := st.vx + ax * ctx.timeStep
  let vy1 := st.vy + ay * ctx.timeStep
  let vz1 := st.vz + az * ctx.timeStep
  { st with
    vx := vx1, vy := vy1, vz := vz1,
    x := st.x + vx1 * ctx.timeStep,
    y := st.y + vy1 * ctx.timeStep,
    z := st.z + vz1 * ctx.timeStep,
    t := st.t + ctx.timeStep,
    mass := mass1,
    burnoutAltitude := burnoutAltitude1,
    burnoutVelocity := burnoutVelocity1 }

/-- The `while (iteration < maxIterations)` loop of `calculateAscent`;
the fuel is the remaining iteration budget (initially 10000).  The apogee
break `vz < 0 && z > launchElevation + 1` fires after the observation
part of the iteration, exactly as in the source. -/
def ascentLoop (ctx : AscentCtx) : ℕ → AscentState → AscentState
  | 0, st => st
  | fuel + 1, st =>
    let st1 := ascentObserve ctx st
    if st.vz < 0 ∧ st.z > ctx.input.launchElevation + 1 then st1
    else ascentLoop ctx fuel (ascentPhysics ctx st1)

/-- The loop-invariant context assembled by `calculateAscent`. -/
def ascentCtxOf (input : AscentInput) : AscentCtx :=
  let launchAngleRad := input.launchAngle * π / 180
  let launchAzimuthRad := input.launchAzimuth * π / 180
  let wc := getWindComponents input.windSpeed input.windDirection
  { input := input, timeStep := input.timeStep.getD 0.02, wx := wc.1, wy := wc.2,
    initialVx := Real.sin launchAzimuthRad * Real.cos launchAngleRad,
    initialVy := Real.cos launchAzimuthRad * Real.cos launchAngleRad,
    initialVz := Real.sin launchAngleRad,
    averageThrust := input.rocket.motorTotalImpulse / input.rocket.motorBurnTime,
    referenceArea := π * (input.rocket.bodyDiameter / 2) ^ (2 : ℕ),
    massFlowRate := input.rocket.propellantMass / input.rocket.motorBurnTime }

/-- The initial loop state of `calculateAscent`. -/
def ascentInitialState (input : AscentInput) : AscentState :=
  { x := 0, y := 0, z := input.launchElevation, vx := 0, vy := 0, vz := 0, t := 0,
    mass := input.rocket.dryMass + input.rocket.propellantMass,
    maxVelocity := 0, burnoutAltitude := 0, burnoutVelocity := 0, points := [] }

/-- `calculateAscent(input)`. -/
def calculateAscent (input : AscentInput) : AscentResult :=
  let stF := ascentLoop (ascentCtxOf input) 10000 (ascentInitialState input)
  let finalPoint : TrajectoryPoint :=
    { time := stF.t, position := ⟨stF.x, stF.y, stF.z⟩,
      velocity := ⟨stF.vx, stF.vy, stF.vz⟩, phase := FlightPhase.coast }
  { trajectoryPoints := stF.points ++ [finalPoint],
    apogee := { time := stF.t, altitude := stF.z - input.launchElevation,
                position := ⟨stF.x, stF.y, stF.z⟩ },
    maxVelocity := stF.maxVelocity,
    burnoutAltitude := stF.burnoutAltitude,
    burnoutVelocity := stF.burnoutVelocity }

/-! ## Source: `src/physics/parachute.ts` -/

structure DescentInput where
  recovery : RecoveryParameters
  rocketMass : ℝ
  rocketDiameter : ℝ
  rocketCd : ℝ
  startPosition : Vec3
  startVelocity : Vec3
  startTime : ℝ
  groundLevel : ℝ
  getWindAtAltitude : ℝ → WindSample
  surfaceTemp : Option ℝ
  surfacePressure : Option ℝ
  timeStep : Option ℝ

structure DescentLanding where
  time : ℝ
  position : Vec3
  velocity : ℝ

structure DescentResult where
  trajectoryPoints : List TrajectoryPoint
  landing : DescentLanding
  descentTime : ℝ
  averageDescentRate : ℝ

/-- `getRecoveryDragParams(recovery, _rocketMass, rocketDiameter, rocketCd)`
returning `(cd, area)`; the `_rocketMass` parameter is unused in the
source and dropped here. -/
def getRecoveryDragParams (recovery : RecoveryParameters)
    (rocketDiameter rocketCd : ℝ) : ℝ × ℝ :=
  match recovery.method with
  | RecoveryMethod.parachute =>
    let diameter := recovery.parachuteDiameter.getD 0.3
    let cd := recovery.parachuteCd.getD 1.75
    (cd, π * (diameter / 2) ^ (2 : ℕ))
  | RecoveryMethod.streamer =>
    (recovery.streamerCd.getD 1.2, recovery.streamerArea.getD 0.01)
  | RecoveryMethod.freefall =>
    (rocketCd, π * (rocketDiameter / 2) ^ (2 : ℕ))

/-- Mutable state of the `calculateDescent` loop. -/
structure DescentState where
  x : ℝ
  y : ℝ
  z : ℝ
  vx : ℝ
  vy : ℝ
  vz : ℝ
  t : ℝ
  totalDescentRate : ℝ
  descentSamples : ℕ
  points : List TrajectoryPoint

/-- The descent point-sampling test `Math.abs(t % 0.2) < timeStep / 2`. -/
def descentSampleCond (timeStep t : ℝ) : Prop :=
  |jsMod t 0.2| < timeStep / 2

instance (timeStep t : ℝ) : Decidable (descentSampleCond timeStep t) := by
  unfold descentSampleCond
  infer_instance

/-- The trajectory point recorded by a descent iteration. -/
def mkDescentPoint (st : DescentState) : TrajectoryPoint :=
  { time := st.t, position := ⟨st.x, st.y, st.z⟩,
    velocity := ⟨st.vx, st.vy, st.vz⟩, phase := FlightPhase.descent }

/-- One full iteration of the `calculateDescent` loop body. -/
def descentStep (input : DescentInput) (timeStep cd area : ℝ)
    (st : DescentState) : DescentState :=
  let wind := input.getWindAtAltitude (st.z - input.groundLevel)
  let wc := getWindComponents wind.speed wind.direction
  let descentRate := -st.vz
  let totalDescentRate1 :=
    if descentRate > 0 then st.totalDescentRate + descentRate else st.totalDescentRate
  let descentSamples1 :=
    if descentRate > 0 then st.descentSamples + 1 else st.descentSamples
  let points1 :=
    if descentSampleCond timeStep st.t then st.points ++ [mkDescentPoint st]
    else st.points
  let vxRel := st.vx - wc.1
  let vyRel := st.vy - wc.2
  let vzRel := st.vz
  let velocityRel := Real.sqrt (vxRel * vxRel + vyRel * vyRel + vzRel * vzRel)
  let g := getGravity st.z
  let density := getDensity st.z input.surfaceTemp input.surfacePressure
  let drag := 0.5 * density * velocityRel * velocityRel * cd * area
  let dragX := if velocityRel > 0.01 then drag * vxRel / velocityRel else 0
  let dragY := if velocityRel > 0.01 then drag * vyRel / velocityRel else 0
  let dragZ := if velocityRel > 0.01 then drag * vzRel / velocityRel else 0
  let ax := -dragX / input.rocketMass
  let ay := -dragY / input.rocketMass
  let az := -dragZ / input.rocketMass - g
  let vx1 := st.vx + ax * timeStep
  let vy1 := st.vy + ay * timeStep
  let vz1 := st.vz + az * timeStep
  { x := st.x + vx1 * timeStep,
    y := st.y + vy1 * timeStep,
    z := st.z + vz1 * timeStep,
    vx := vx1, vy := vy1, vz := vz1,
    t := st.t + timeStep,
    totalDescentRate := totalDescentRate1,
    descentSamples := descentSamples1,
    points := points1 }

/-- The `while (z > groundLevel && iteration < maxIterations)` loop of
`calculateDescent`; the fuel is the remaining iteration budget
(initially 10000). -/
def descentLoop (input : DescentInput) (timeStep cd area : ℝ) :
    ℕ → DescentState → DescentState
  | 0, st => st
  | fuel + 1, st =>
    if st.z > input.groundLevel then
      descentLoop input timeStep cd area fuel (descentStep input timeStep cd area st)
    else st

/-- The initial loop state of `calculateDescent`. -/
def descentInitialState (input : DescentInput) : DescentState :=
  { x := input.startPosition.x, y := input.startPosition.y, z := input.startPosition.z,
    vx := input.startVelocity.x, vy := input.startVelocity.y, vz := input.startVelocity.z,
    t := input.startTime, totalDescentRate := 0, descentSamples := 0, points := [] }

/-- `calculateDescent(input)`. -/
def calculateDescent (input : DescentInput) : DescentResult :=
  let timeStep := input.timeStep.getD 0.05
  let dp := getRecoveryDragParams input.recovery input.rocketDiameter input.rocketCd
  let stF := descentLoop input timeStep dp.1 dp.2 10000 (descentInitialState input)
  let landingVelocity := Real.sqrt (stF.vx * stF.vx + stF.vy * stF.vy + stF.vz * stF.vz)
  let finalPoint : TrajectoryPoint :=
    { time := stF.t, position := ⟨stF.x, stF.y, input.groundLevel⟩,
      velocity := ⟨stF.vx, stF.vy, stF.vz⟩, phase := FlightPhase.descent }
  { trajectoryPoints := stF.points ++ [finalPoint],
    landing := { time := stF.t, position := ⟨stF.x, stF.y, input.groundLevel⟩,
                 velocity := landingVelocity },
    descentTime := stF.t - input.startTime,
    averageDescentRate :=
      if stF.descentSamples > 0 then stF.totalDescentRate / (stF.descentSamples : ℝ) else 0 }

/-! ## Source: `src/services/trajectory/TrajectoryService.ts` -/

structure TrajectoryInput where
  rocket : RocketParameters
  recovery : RecoveryParameters
  launchSite : LaunchSite
  weather : WeatherData
  windUncertainty : Option WindUncertainty

/-- `positionToCoordinates(origin, x, y)`: equirectangular local-to-geo. -/
def positionToCoordinates (origin : LaunchSite) (x y : ℝ) : Coordinates :=
  let metersPerDegreeLat : ℝ := 111320
  let metersPerDegreeLon : ℝ := 111320 * Real.cos (origin.latitude * π / 180)
  { latitude := origin.latitude + y / metersPerDegreeLat,
    longitude := origin.longitude + x / metersPerDegreeLon }

/-- JavaScript `Math.atan2(y, x)` (signed zeros ignored). -/
def jsAtan2 (y x : ℝ) : ℝ :=
  if 0 < x then Real.arctan (y / x)
  else if x < 0 then
    (if 0 ≤ y then Real.arctan (y / x) + π else Real.arctan (y / x) - π)
  else (if 0 < y then π / 2 else if y < 0 then -(π / 2) else 0)

/-- The `AscentInput` that `calculateTrajectory` assembles. -/
def ascentInputOf (input : TrajectoryInput) : AscentInput :=
  { rocket := input.rocket,
    launchAngle := input.launchSite.launchAngle,
    launchAzimuth := input.launchSite.launchAzimuth,
    launchElevation := input.launchSite.elevation,
    windSpeed := input.weather.surfaceWindSpeed,
    windDirection := input.weather.surfaceWindDirection,
    surfaceTemp := some input.weather.surfaceTemperature,
    surfacePressure := some input.weather.surfacePressure,
    timeStep := Option.none }

/-- The `DescentInput` that `calculateTrajectory` assembles: seeded at the
ascent apogee with the small downward seed velocity `(0, 0, -0.1)`. -/
def descentInputOf (input : TrajectoryInput) : DescentInput :=
  { recovery := input.recovery,
    rocketMass := input.rocket.dryMass,
    rocketDiameter := input.rocket.bodyDiameter,
    rocketCd := input.rocket.dragCoefficient,
    startPosition := (calculateAscent (ascentInputOf input)).apogee.position,
    startVelocity := ⟨0, 0, -0.1⟩,
    startTime := (calculateAscent (ascentInputOf input)).apogee.time,
    groundLevel := input.launchSite.elevation,
    getWindAtAltitude := createWindProfileFromWeather input.weather,
    surfaceTemp := some input.weather.surfaceTemperature,
    surfacePressure := some input.weather.surfacePressure,
    timeStep := Option.none }

/-- `calculateTrajectory(input)`: the `predictTrajectory` entry point. -/
def calculateTrajectory (input : TrajectoryInput) : TrajectoryResult :=
  let windUncertainty := input.windUncertainty.getD DEFAULT_WIND_UNCERTAINTY
  let ascentResult := calculateAscent (ascentInputOf input)
  let descentResult := calculateDescent (descentInputOf input)
  let trajectoryPoints := ascentResult.trajectoryPoints ++ descentResult.trajectoryPoints
  let landingPosition := descentResult.landing.position
  let predictedLanding :=
    positionToCoordinates input.launchSite landingPosition.x landingPosition.y
  let horizontalDistance := Real.sqrt
    (landingPosition.x * landingPosition.x + landingPosition.y * landingPosition.y)
  let landingBearing := jsAtan2 landingPosition.x landingPosition.y * 180 / π
  let normalizedBearing := jsMod (landingBearing + 360) 360
  let ellipseParams := calculateUncertaintyEllipse horizontalDistance
    input.weather.surfaceWindDirection windUncertainty
  { trajectoryPoints := trajectoryPoints,
    predictedLanding := predictedLanding,
    uncertaintyEllipse :=
      { center := predictedLanding,
        semiMajorAxis := ellipseParams.semiMajor,
        semiMinorAxis := ellipseParams.semiMinor,
        rotation := ellipseParams.rotation,
        confidence := 0.95 },
    stats :=
      { maxAltitude := ascentResult.apogee.altitude,
        apogeeTime := ascentResult.apogee.time,
        totalFlightTime := descentResult.landing.time,
        maxVelocity := ascentResult.maxVelocity,
        landingVelocity := descentResult.landing.velocity,
        horizontalDistance := horizontalDistance,
        landingBearing := normalizedBearing },
    launchSite := { latitude := input.launchSite.latitude,
                    longitude := input.launchSite.longitude } }

/-! ## Source: `src/services/telemetry/MockTelemetryService.ts`

The service is a mutable object; it is embedded as a state record plus one
state-transformer per public method.  `Date.now()` reads become an explicit
`now` argument, and the `setInterval` handle is abstracted to the boolean
`timerActive` (handle present or not).  The subscriber callback list is
never touched by start/pause/resume/setPlaybackSpeed and is omitted. -/

inductive TelemetryServiceStatus
  | idle
  | running
  | paused
  | completed
deriving DecidableEq

inductive TelemetryMode
  | gps
  | altitude_only
  | off
deriving DecidableEq

structure MockTelemetryState where
  status : TelemetryServiceStatus
  mode : TelemetryMode
  updateInterval : ℝ
  playbackSpeed : ℝ
  trajectoryResult : Option TrajectoryResult
  launchSite : Option LaunchSite
  currentIndex : ℕ
  currentTime : ℝ
  timerActive : Bool
  startTimestamp : ℝ
  pausedAt : ℝ

namespace MockTelemetryService

/-- `startEmitting()`: a no-op when a timer is already active. -/
def startEmitting (st : MockTelemetryState) : MockTelemetryState :=
  if st.timerActive then st else { st with timerActive := true }

/-- `stopEmitting()`. -/
def stopEmitting (st : MockTelemetryState) : MockTelemetryState :=
  if st.timerActive then { st with timerActive := false } else st

/-- `start(trajectoryResult, launchSite, mode)`. -/
def start (st : MockTelemetryState) (trajectoryResult : TrajectoryResult)
    (launchSite : LaunchSite) (mode : TelemetryMode) (now : ℝ) : MockTelemetryState :=
  if st.status = TelemetryServiceStatus.running then st
  else
    startEmitting
      { st with
        trajectoryResult := some trajectoryResult,
        launchSite := some launchSite,
        mode := mode,
        currentIndex := 0,
        currentTime := 0,
        startTimestamp := now,
        status := TelemetryServiceStatus.running }

/-- `stop()`. -/
def stop (st : MockTelemetryState) : MockTelemetryState :=
  { stopEmitting st with
    status := TelemetryServiceStatus.idle, currentIndex := 0, currentTime := 0 }

/-- `pause()`. -/
def pause (st : MockTelemetryState) (now : ℝ) : MockTelemetryState :=
  if st.status ≠ TelemetryServiceStatus.running then st
  else { stopEmitting st with pausedAt := now, status := TelemetryServiceStatus.paused }

/-- `resume()`. -/
def resume (st : MockTelemetryState) (now : ℝ) : MockTelemetryState :=
  if st.status ≠ TelemetryServiceStatus.paused then st
  else
    startEmitting
      { st with
        startTimestamp := st.startTimestamp + (now - st.pausedAt),
        status := TelemetryServiceStatus.running }

/-- `setPlaybackSpeed(speed)`. -/
def setPlaybackSpeed (st : MockTelemetryState) (speed : ℝ) : MockTelemetryState :=
  if speed ≤ 0 then st
  else
    let st1 := if st.status = TelemetryServiceStatus.running then stopEmitting st else st
    let st2 := { st1 with playbackSpeed := speed }
    if st.status = TelemetryServiceStatus.running then startEmitting st2 else st2

/-- The cursor-advancing `while` loop at the top of `interpolatePoint`:
`while (i < points.length - 1 && points[i + 1].time <= time) i++`. -/
def advanceIndex (points : List TrajectoryPoint) (time : ℝ) (i : ℕ) : ℕ :=
  if h : i + 1 < points.length then
    if (points.get ⟨i + 1, h⟩).time ≤ time then advanceIndex points time (i + 1) else i
  else i
  termination_by points.length - i
  decreasing_by omega

/-- `interpolatePoint(time, points)`: returns the updated scan cursor
(the source assigns it to `this.currentIndex`) and the emitted point. -/
def interpolatePoint (points : List TrajectoryPoint) (time : ℝ) (startIndex : ℕ) :
    ℕ × Option TrajectoryPoint :=
  let i := advanceIndex points time startIndex
  if h : points.length - 1 ≤ i then (i, points[points.length - 1]?)
  else
    have h1 : i < points.length := by omega
    have h2 : i + 1 < points.length := by omega
    let p1 := points.get ⟨i, h1⟩
    let p2 := points.get ⟨i + 1, h2⟩
    let t := (time - p1.time) / (p2.time - p1.time)
    (i, some
      { time := time,
        position := ⟨p1.position.x + (p2.position.x - p1.position.x) * t,
                     p1.position.y + (p2.position.y - p1.position.y) * t,
                     p1.position.z + (p2.position.z - p1.position.z) * t⟩,
        velocity := ⟨p1.velocity.x + (p2.velocity.x - p1.velocity.x) * t,
                     p1.velocity.y + (p2.velocity.y - p1.velocity.y) * t,
                     p1.velocity.z + (p2.velocity.z - p1.velocity.z) * t⟩,
        phase := p2.phase })

end MockTelemetryService

/-! ## Concrete sample data used to instantiate theorems -/

def sampleRocket : RocketParameters :=
  { dryMass := 0.08, propellantMass := 0.01, bodyDiameter := 0.025, bodyLength := 0.3,
    dragCoefficient := 0.5, motorTotalImpulse := 5, motorBurnTime := 0.5, motorDelayTime := 3 }

def sampleRecovery : RecoveryParameters :=
  { method := RecoveryMethod.parachute, parachuteDiameter := some 0.3,
    parachuteCd := some 1.75, streamerArea := Option.none, streamerCd := Option.none }

def sampleSite : LaunchSite :=
  { latitude := 35.6762, longitude := 139.6503, elevation := 0,
    launchAngle := 90, launchAzimuth := 0 }

def sampleWeather : WeatherData :=
  { surfaceWindSpeed := 0, surfaceWindDirection := 0, surfaceTemperature := 15,
    surfacePressure := 1013.25, windLayers := Option.none, source := WeatherSource.manual }

def sampleTrajectoryInput : TrajectoryInput :=
  { rocket := sampleRocket, recovery := sampleRecovery, launchSite := sampleSite,
    weather := sampleWeather, windUncertainty := Option.none }

def calmWind : ℝ → WindSample := fun _ => { speed := 0, direction := 0 }

/-- A descent input starting at the given time, 100 m above flat ground. -/
def descentInputAt (startTime : ℝ) : DescentInput :=
  { recovery := sampleRecovery, rocketMass := 0.08, rocketDiameter := 0.025,
    rocketCd := 0.5, startPosition := ⟨0, 0, 100⟩, startVelocity := ⟨0, 0, -0.1⟩,
    startTime := startTime, groundLevel := 0, getWindAtAltitude := calmWind,
    surfaceTemp := Option.none, surfacePressure := Option.none, timeStep := Option.none }

/-- A descent input that already starts below ground level. -/
def descentInputBelowGround : DescentInput :=
  { recovery := sampleRecovery, rocketMass := 0.08, rocketDiameter := 0.025,
    rocketCd := 0.5, startPosition := ⟨2, 3, 5⟩, startVelocity := ⟨0, 0, -3⟩,
    startTime := 7, groundLevel := 10, getWindAtAltitude := calmWind,
    surfaceTemp := Option.none, surfacePressure := Option.none, timeStep := Option.none }

def sampleTrajectoryResult : TrajectoryResult :=
  { trajectoryPoints := [],
    predictedLanding := ⟨0, 0⟩,
    uncertaintyEllipse := { center := ⟨0, 0⟩, semiMajorAxis := 10, semiMinorAxis := 5,
                            rotation := 0, confidence := 0.95 },
    stats := { maxAltitude := 0, apogeeTime := 0, totalFlightTime := 0, maxVelocity := 0,
               landingVelocity := 0, horizontalDistance := 0, landingBearing := 0 },
    launchSite := ⟨0, 0⟩ }

def midpointP1 : TrajectoryPoint :=
  { time := 0, position := ⟨0, 0, 0⟩, velocity := ⟨2, 4, 6⟩, phase := FlightPhase.coast }

def midpointP2 : TrajectoryPoint :=
  { time := 2, position := ⟨2, 4, 6⟩, velocity := ⟨4, 8, 10⟩, phase := FlightPhase.descent }

def sampleTelemetryState (status : TelemetryServiceStatus) : MockTelemetryState :=
  { status := status, mode := TelemetryMode.gps, updateInterval := 100, playbackSpeed := 1,
    trajectoryResult := Option.none, launchSite := Option.none, currentIndex := 0,
    currentTime := 0, timerActive := false, startTimestamp := 0, pausedAt := 0 }

/-! # Theorems -/

theorem jsMod_of_nonneg (a b : ℝ) (h : 0 ≤ a / b) : jsMod a b = mathMod a b := by
  simp [jsMod, mathMod, jsTrunc, h]

theorem mathMod_nonneg (a b : ℝ) (hb : 0 < b) : 0 ≤ mathMod a b := by
  have h := Int.fract_nonneg (α := ℝ) (a / b)
  have hfr : mathMod a b = b * Int.fract (a / b) := by
    rw [mathMod, Int.fract, mul_sub, mul_div_cancel₀ a hb.ne']
  rw [hfr]
  positivity

theorem mathMod_lt (a b : ℝ) (hb : 0 < b) : mathMod a b < b := by
  have h := Int.fract_lt_one (α := ℝ) (a / b)
  have hfr : mathMod a b = b * Int.fract (a / b) := by
    rw [mathMod, Int.fract, mul_sub, mul_div_cancel₀ a hb.ne']
  rw [hfr]
  calc b * Int.fract (a / b) < b * 1 := by
        exact (mul_lt_mul_left hb).2 h
    _ = b := mul_one b

/-- Evaluation helper: if `⌊a / b⌋ = k` and `a / b ≥ 0` then
`jsMod a b = a - b * k`. -/
theorem jsMod_eval (a b : ℝ) (k : ℤ) (h0 : 0 ≤ a / b) (hk : ⌊a / b⌋ = k) :
    jsMod a b = a - b * k := by
  simp [jsMod, jsTrunc, h0, hk]


/-- C1: with the sea-level standard defaults, temperature does strictly
decrease in the troposphere, but pressure and density strictly INCREASE
with altitude (shown here at the failing pair h1 = 0, h2 = 1000): the
barometric exponent is written `g0 / (R * LAPSE_RATE)`, which is negative,
where the ISA formula requires its negation.  This contradicts the
repository's own unit tests (`atmosphere.test.ts` asserts
`getPressure(1000) < getPressure(0)`, `getDensity(1000) < getDensity(0)`
and `getPressure(11000) ≈ 22632`). -/
theorem atmosphere_pressure_inversion_at_failing_input :
    getTemperature 1000 none < getTemperature 0 none ∧
    getPressure 0 none < getPressure 1000 none ∧
    getDensity 0 none none < getDensity 1000 none none := by
  have he : PHYSICAL_CONSTANTS.g0 / (PHYSICAL_CONSTANTS.R * LAPSE_RATE) < 0 := by
    apply div_neg_of_pos_of_neg <;> norm_num [PHYSICAL_CONSTANTS, LAPSE_RATE]
  have hT0 : getTemperature 0 none = 288.15 := by
    norm_num [getTemperature, SEA_LEVEL_STANDARD, LAPSE_RATE]
  have hT1 : getTemperature 1000 none = 281.65 := by
    norm_num [getTemperature, SEA_LEVEL_STANDARD, LAPSE_RATE]
  have hP0 : getPressure 0 none = 101325 := by
    rw [getPressure, if_pos (by norm_num)]
    norm_num [troposphericPressure, SEA_LEVEL_STANDARD, LAPSE_RATE, Real.one_rpow]
  have hbase : (1 : ℝ) + LAPSE_RATE * 1000 / SEA_LEVEL_STANDARD.temperature = 281.65 / 288.15 := by
    norm_num [SEA_LEVEL_STANDARD, LAPSE_RATE]
  have hP1form : getPressure 1000 none =
      101325 * (281.65 / 288.15 : ℝ) ^
        (PHYSICAL_CONSTANTS.g0 / (PHYSICAL_CONSTANTS.R * LAPSE_RATE)) := by
    rw [getPressure, if_pos (by norm_num), troposphericPressure]
    rw [hbase]
    norm_num [SEA_LEVEL_STANDARD]
  have hb0 : (0 : ℝ) < 281.65 / 288.15 := by norm_num
  have hb1 : (281.65 / 288.15 : ℝ) < 1 := by norm_num
  have hgt : 1 < (281.65 / 288.15 : ℝ) ^
      (PHYSICAL_CONSTANTS.g0 / (PHYSICAL_CONSTANTS.R * LAPSE_RATE)) :=
    (Real.one_lt_rpow_iff_of_pos hb0).2 (Or.inr ⟨hb1, he⟩)
  have hP : getPressure 0 none < getPressure 1000 none := by
    rw [hP0, hP1form]
    exact (lt_mul_iff_one_lt_right (by norm_num : (0:ℝ) < 101325)).2 hgt
  refine ⟨by rw [hT0, hT1]; norm_num, hP, ?_⟩
  have hq : (101325 : ℝ) < getPressure 1000 none := by rw [← hP0]; exact hP
  rw [getDensity, getDensity, hT0, hT1, hP0]
  have hR : PHYSICAL_CONSTANTS.R = 287.05287 := rfl
  rw [hR, div_lt_div_iff₀ (by norm_num) (by norm_num)]
  nlinarith [hq]


/-- C3: `calculateUncertaintyEllipse` returns
`semiMajor = max(drift * speedUncertainty, 10)`,
`semiMinor = max(drift * sin(directionUncertainty in radians), 5)` and
`rotation = (windDirection + 180) mod 360`, for every drift, wind
direction in `[0, 360)` and uncertainty pair. -/
theorem uncertaintyEllipse_formula (drift windDirection : ℝ) (u : WindUncertainty)
    (h0 : 0 ≤ windDirection) (h1 : windDirection < 360) :
    calculateUncertaintyEllipse drift windDirection u =
      { semiMajor := max (drift * u.speedUncertainty) 10,
        semiMinor := max (drift * Real.sin (u.directionUncertainty * π / 180)) 5,
        rotation := mathMod (windDirection + 180) 360 } := by
  have hj : jsMod (windDirection + 180) 360 = mathMod (windDirection + 180) 360 :=
    jsMod_of_nonneg _ _ (div_nonneg (by linarith) (by norm_num))
  simp [calculateUncertaintyEllipse, hj]

theorem uncertaintyEllipse_formula_witness :
    calculateUncertaintyEllipse 100 90 DEFAULT_WIND_UNCERTAINTY =
      { semiMajor := max (100 * DEFAULT_WIND_UNCERTAINTY.speedUncertainty) 10,
        semiMinor := max
          (100 * Real.sin (DEFAULT_WIND_UNCERTAINTY.directionUncertainty * π / 180)) 5,
        rotation := mathMod (90 + 180) 360 } :=
  uncertaintyEllipse_formula 100 90 DEFAULT_WIND_UNCERTAINTY (by norm_num) (by norm_num)

/-- C8: `calculateTrajectory` is deterministic: equal input records give
equal results.  Freedom from retained state is certified by the embedding
itself: the whole `predictTrajectory` call graph is modelled by
state-free functions of the explicit inputs alone. -/
theorem calculateTrajectory_deterministic (input1 input2 : TrajectoryInput)
    (h : input1 = input2) :
    calculateTrajectory input1 = calculateTrajectory input2 :=
  congrArg calculateTrajectory h

theorem calculateTrajectory_deterministic_witness :
    calculateTrajectory sampleTrajectoryInput = calculateTrajectory sampleTrajectoryInput :=
  calculateTrajectory_deterministic sampleTrajectoryInput sampleTrajectoryInput rfl

/-- C6: playback misuse is rejected as a no-op: `start()` while running,
`resume()` while not paused, and `setPlaybackSpeed(s)` with `s ≤ 0` leave
the entire playback state (status, stored trajectory, cursor, current
time, wall-clock anchor, playback speed) unchanged; all transformers are
total, so no exception is possible. -/
theorem playback_misuse_is_noop (st : MockTelemetryState) (tr : TrajectoryResult)
    (site : LaunchSite) (mode : TelemetryMode) (now speed : ℝ) :
    (st.status = TelemetryServiceStatus.running →
      MockTelemetryService.start st tr site mode now = st) ∧
    (st.status ≠ TelemetryServiceStatus.paused →
      MockTelemetryService.resume st now = st) ∧
    (speed ≤ 0 → MockTelemetryService.setPlaybackSpeed st speed = st) := by
  refine ⟨fun h => ?_, fun h => ?_, fun h => ?_⟩
  · simp [MockTelemetryService.start, h]
  · simp [MockTelemetryService.resume, h]
  · simp [MockTelemetryService.setPlaybackSpeed, h]

theorem playback_misuse_is_noop_witness :
    MockTelemetryService.start (sampleTelemetryState TelemetryServiceStatus.running)
        sampleTrajectoryResult sampleSite TelemetryMode.gps 12345
      = sampleTelemetryState TelemetryServiceStatus.running ∧
    MockTelemetryService.resume (sampleTelemetryState TelemetryServiceStatus.idle) 12345
      = sampleTelemetryState TelemetryServiceStatus.idle ∧
    MockTelemetryService.setPlaybackSpeed (sampleTelemetryState TelemetryServiceStatus.running) 0
      = sampleTelemetryState TelemetryServiceStatus.running :=
  ⟨(playback_misuse_is_noop (sampleTelemetryState TelemetryServiceStatus.running)
      sampleTrajectoryResult sampleSite TelemetryMode.gps 12345 0).1 rfl,
   (playback_misuse_is_noop (sampleTelemetryState TelemetryServiceStatus.idle)
      sampleTrajectoryResult sampleSite TelemetryMode.gps 12345 0).2.1
      (by simp [sampleTelemetryState]),
   (playback_misuse_is_noop (sampleTelemetryState TelemetryServiceStatus.running)
      sampleTrajectoryResult sampleSite TelemetryMode.gps 12345 0).2.2 (by norm_num)⟩

/-- C10: `start()` is accepted from every status except running: it
replaces the stored trajectory and launch site, sets the mode, resets the
scan cursor and current time to 0, records the fresh wall-clock anchor
`now`, activates the timer and sets the status to running. -/
theorem start_accepted_when_not_running (st : MockTelemetryState) (tr : TrajectoryResult)
    (site : LaunchSite) (mode : TelemetryMode) (now : ℝ)
    (h : st.status = TelemetryServiceStatus.idle ∨
         st.status = TelemetryServiceStatus.paused ∨
         st.status = TelemetryServiceStatus.completed) :
    MockTelemetryService.start st tr site mode now =
      { st with
        trajectoryResult := some tr, launchSite := some site, mode := mode,
        currentIndex := 0, currentTime := 0, startTimestamp := now,
        status := TelemetryServiceStatus.running, timerActive := true } := by
  have hne : st.status ≠ TelemetryServiceStatus.running := by
    rcases h with h | h | h <;> simp [h]
  obtain ⟨stat, mo, ui, ps, trj, ls, ci, ct, ta, sts, pa⟩ := st
  rw [MockTelemetryService.start, if_neg hne, MockTelemetryService.startEmitting]
  cases ta <;> rfl

theorem start_accepted_when_not_running_witness :
    MockTelemetryService.start (sampleTelemetryState TelemetryServiceStatus.completed)
        sampleTrajectoryResult sampleSite TelemetryMode.gps 555 =
      { sampleTelemetryState TelemetryServiceStatus.completed with
        trajectoryResult := some sampleTrajectoryResult, launchSite := some sampleSite,
        mode := TelemetryMode.gps, currentIndex := 0, currentTime := 0,
        startTimestamp := 555, status := TelemetryServiceStatus.running,
        timerActive := true } :=
  start_accepted_when_not_running (sampleTelemetryState TelemetryServiceStatus.completed)
    sampleTrajectoryResult sampleSite TelemetryMode.gps 555
    (Or.inr (Or.inr rfl))


/-- C7: with the scan cursor on `p1` and `p2` the next stored point, the
sample interpolated at the midpoint time `(p1.time + p2.time) / 2` has
position and velocity equal to the component-wise arithmetic mean of `p1`
and `p2`, and the cursor does not move. -/
theorem interpolation_midpoint_is_mean (points : List TrajectoryPoint) (i : ℕ)
    (p1 p2 : TrajectoryPoint) (h1 : points[i]? = some p1) (h2 : points[i + 1]? = some p2)
    (hlt : p1.time < p2.time) :
    MockTelemetryService.interpolatePoint points ((p1.time + p2.time) / 2) i =
      (i, some
        { time := (p1.time + p2.time) / 2,
          position := ⟨(p1.position.x + p2.position.x) / 2,
                       (p1.position.y + p2.position.y) / 2,
                       (p1.position.z + p2.position.z) / 2⟩,
          velocity := ⟨(p1.velocity.x + p2.velocity.x) / 2,
                       (p1.velocity.y + p2.velocity.y) / 2,
                       (p1.velocity.z + p2.velocity.z) / 2⟩,
          phase := p2.phase }) := by
  obtain ⟨hlen2, hget2⟩ := List.getElem?_eq_some_iff.1 h2
  obtain ⟨hlen1, hget1⟩ := List.getElem?_eq_some_iff.1 h1
  have hne : p2.time - p1.time ≠ 0 := sub_ne_zero.2 hlt.ne'
  have hadv : MockTelemetryService.advanceIndex points ((p1.time + p2.time) / 2) i = i := by
    rw [MockTelemetryService.advanceIndex, dif_pos hlen2, if_neg]
    rw [List.get_eq_getElem, hget2]
    push_neg
    linarith
  have hnotlast : ¬ (points.length - 1 ≤ i) := by omega
  simp only [MockTelemetryService.interpolatePoint, hadv, dif_neg hnotlast,
    List.get_eq_getElem, hget1, hget2, Prod.mk.injEq, Option.some.injEq,
    TrajectoryPoint.mk.injEq, Vec3.mk.injEq]
  have ht : ((p1.time + p2.time) / 2 - p1.time) / (p2.time - p1.time) = 1 / 2 := by
    rw [div_eq_iff hne]
    ring
  rw [ht]
  norm_num
  refine ⟨⟨?_, ?_, ?_⟩, ?_, ?_, ?_⟩ <;> ring

theorem interpolation_midpoint_is_mean_witness :
    MockTelemetryService.interpolatePoint [midpointP1, midpointP2] 1 0 =
      (0, some { time := 1, position := ⟨1, 2, 3⟩, velocity := ⟨3, 6, 8⟩,
                 phase := FlightPhase.descent }) := by
  have h := interpolation_midpoint_is_mean [midpointP1, midpointP2] 0 midpointP1 midpointP2
    rfl rfl (by norm_num [midpointP1, midpointP2])
  norm_num [midpointP1, midpointP2] at h
  exact h

/-- If the descent start altitude is not above ground, the integration
loop never runs. -/
theorem descentLoop_of_le (input : DescentInput) (timeStep cd area : ℝ) (fuel : ℕ)
    (st : DescentState) (h : ¬ input.groundLevel < st.z) :
    descentLoop input timeStep cd area fuel st = st := by
  cases fuel <;> simp [descentLoop, h]

/-- C9: calling `calculateDescent` with `startPosition.z ≤ groundLevel`
skips the loop entirely: exactly one trajectory point, at `startTime`,
forced to ground level; `descentTime = 0`, `averageDescentRate = 0`, and
the reported landing velocity is the magnitude of `startVelocity`. -/
theorem descent_with_start_at_or_below_ground (input : DescentInput)
    (h : input.startPosition.z ≤ input.groundLevel) :
    calculateDescent input =
      { trajectoryPoints :=
          [⟨input.startTime,
            ⟨input.startPosition.x, input.startPosition.y, input.groundLevel⟩,
            input.startVelocity, FlightPhase.descent⟩],
        landing :=
          ⟨input.startTime,
           ⟨input.startPosition.x, input.startPosition.y, input.groundLevel⟩,
           Real.sqrt (input.startVelocity.x * input.startVelocity.x +
             input.startVelocity.y * input.startVelocity.y +
             input.startVelocity.z * input.startVelocity.z)⟩,
        descentTime := 0, averageDescentRate := 0 } := by
  have hz : ¬ input.groundLevel < (descentInitialState input).z := not_lt.2 h
  simp only [calculateDescent, descentLoop_of_le _ _ _ _ _ _ hz]
  simp [descentInitialState]

theorem descent_with_start_at_or_below_ground_witness :
    calculateDescent descentInputBelowGround =
      { trajectoryPoints := [⟨7, ⟨2, 3, 10⟩, ⟨0, 0, -3⟩, FlightPhase.descent⟩],
        landing := ⟨7, ⟨2, 3, 10⟩, Real.sqrt ((0 : ℝ) * 0 + 0 * 0 + -3 * -3)⟩,
        descentTime := 0, averageDescentRate := 0 } := by
  have h := descent_with_start_at_or_below_ground descentInputBelowGround
    (by norm_num [descentInputBelowGround])
  simpa [descentInputBelowGround] using h


/-! ### Structural lemmas about the descent loop -/

theorem descentStep_t (input : DescentInput) (ts cd area : ℝ) (st : DescentState) :
    (descentStep input ts cd area st).t = st.t + ts := rfl

theorem descentStep_points (input : DescentInput) (ts cd area : ℝ) (st : DescentState) :
    (descentStep input ts cd area st).points =
      if descentSampleCond ts st.t then st.points ++ [mkDescentPoint st] else st.points := rfl

/-- The loop only ever appends trajectory points. -/
theorem descentLoop_points_prefix (input : DescentInput) (ts cd area : ℝ) :
    ∀ (fuel : ℕ) (st : DescentState),
      ∃ l, (descentLoop input ts cd area fuel st).points = st.points ++ l := by
  intro fuel
  induction fuel with
  | zero => exact fun st => ⟨[], by simp [descentLoop]⟩
  | succ n ih =>
    intro st
    simp only [descentLoop]
    split
    · obtain ⟨l, hl⟩ := ih (descentStep input ts cd area st)
      rw [hl, descentStep_points]
      split
      · exact ⟨mkDescentPoint st :: l, by simp⟩
      · exact ⟨l, rfl⟩
    · exact ⟨[], (List.append_nil _).symm⟩

/-- Simulated time never decreases across the loop. -/
theorem descentLoop_t_mono (input : DescentInput) (ts cd area : ℝ) (hts : 0 ≤ ts) :
    ∀ (fuel : ℕ) (st : DescentState), st.t ≤ (descentLoop input ts cd area fuel st).t := by
  intro fuel
  induction fuel with
  | zero => intro st; simp [descentLoop]
  | succ n ih =>
    intro st
    simp only [descentLoop]
    split
    · have h1 := ih (descentStep input ts cd area st)
      rw [descentStep_t] at h1
      linarith
    · exact le_refl _
    
/-- If the loop guard holds at entry, at least one step runs. -/
theorem descentLoop_t_entered (input : DescentInput) (ts cd area : ℝ) (hts : 0 ≤ ts)
    (fuel : ℕ) (st : DescentState) (hz : input.groundLevel < st.z) :
    st.t + ts ≤ (descentLoop input ts cd area (fuel + 1) st).t := by
  simp only [descentLoop, if_pos hz]
  have h1 := descentLoop_t_mono input ts cd area hts fuel (descentStep input ts cd area st)
  rw [descentStep_t] at h1
  exact h1

/-- Every point the loop records was sampled at its own time (so the
sampling condition held there), at or after the entry time. -/
theorem descentLoop_points_mem (input : DescentInput) (ts cd area : ℝ) (hts : 0 ≤ ts) :
    ∀ (fuel : ℕ) (st : DescentState) (p : TrajectoryPoint),
      p ∈ (descentLoop input ts cd area fuel st).points →
      p ∈ st.points ∨ (st.t ≤ p.time ∧ descentSampleCond ts p.time) := by
  intro fuel
  induction fuel with
  | zero => intro st p hp; left; simpa [descentLoop] using hp
  | succ n ih =>
    intro st p hp
    simp only [descentLoop] at hp
    by_cases hz : input.groundLevel < st.z
    · rw [if_pos hz] at hp
      rcases ih (descentStep input ts cd area st) p hp with h | ⟨hle, hc⟩
      · rw [descentStep_points] at h
        by_cases hc0 : descentSampleCond ts st.t
        · rw [if_pos hc0] at h
          rcases List.mem_append.1 h with h | h
          · exact Or.inl h
          · have hpe : p = mkDescentPoint st := by simpa using h
            subst hpe
            exact Or.inr ⟨le_refl _, hc0⟩
        · rw [if_neg hc0] at h
          exact Or.inl h
      · rw [descentStep_t] at hle
        exact Or.inr ⟨by linarith, hc⟩
    · rw [if_neg hz] at hp
      exact Or.inl hp

/-- Every point the loop records has phase `descent`. -/
theorem descentLoop_points_phase (input : DescentInput) (ts cd area : ℝ) :
    ∀ (fuel : ℕ) (st : DescentState) (p : TrajectoryPoint),
      p ∈ (descentLoop input ts cd area fuel st).points →
      p ∈ st.points ∨ p.phase = FlightPhase.descent := by
  intro fuel
  induction fuel with
  | zero => intro st p hp; left; simpa [descentLoop] using hp
  | succ n ih =>
    intro st p hp
    simp only [descentLoop] at hp
    by_cases hz : input.groundLevel < st.z
    · rw [if_pos hz] at hp
      rcases ih (descentStep input ts cd area st) p hp with h | h
      · rw [descentStep_points] at h
        by_cases hc0 : descentSampleCond ts st.t
        · rw [if_pos hc0] at h
          rcases List.mem_append.1 h with h | h
          · exact Or.inl h
          · have hpe : p = mkDescentPoint st := by simpa using h
            subst hpe
            exact Or.inr rfl
        · rw [if_neg hc0] at h
          exact Or.inl h
      · exact Or.inr h
    · rw [if_neg hz] at hp
      exact Or.inl hp

/-- If the sampling condition holds on loop entry and no point has been
recorded yet, the first recorded point is the entry state's point. -/
theorem descentLoop_head_of_cond (input : DescentInput) (ts cd area : ℝ)
    (fuel : ℕ) (st : DescentState) (hz : input.groundLevel < st.z)
    (hc : descentSampleCond ts st.t) (hpts : st.points = []) :
    (descentLoop input ts cd area (fuel + 1) st).points.head? =
      some (mkDescentPoint st) := by
  simp only [descentLoop, if_pos hz]
  obtain ⟨l, hl⟩ :=
    descentLoop_points_prefix input ts cd area fuel (descentStep input ts cd area st)
  rw [hl, descentStep_points, if_pos hc, hpts]
  simp


/-! ### Structural lemmas about the ascent loop -/

theorem ascentObserve_points (ctx : AscentCtx) (st : AscentState) :
    (ascentObserve ctx st).points =
      if ascentSampleCond ctx.timeStep st.t then
        st.points ++ [mkAscentPoint ctx.input.rocket.motorBurnTime st]
      else st.points := by
  simp only [ascentObserve]
  split <;> rfl

theorem ascentPhysics_points (ctx : AscentCtx) (st : AscentState) :
    (ascentPhysics ctx st).points = st.points := rfl

theorem mkAscentPoint_phase (burnTime : ℝ) (st : AscentState) :
    (mkAscentPoint burnTime st).phase ≠ FlightPhase.descent := by
  simp only [mkAscentPoint]
  split <;> simp

/-- Every point the ascent loop records has phase `thrust` or `coast`,
never `descent`. -/
theorem ascentLoop_points_phase (ctx : AscentCtx) :
    ∀ (fuel : ℕ) (st : AscentState) (p : TrajectoryPoint),
      p ∈ (ascentLoop ctx fuel st).points →
      p ∈ st.points ∨ p.phase ≠ FlightPhase.descent := by
  intro fuel
  induction fuel with
  | zero => intro st p hp; left; simpa [ascentLoop] using hp
  | succ n ih =>
    intro st p hp
    simp only [ascentLoop] at hp
    have hobs : ∀ q : TrajectoryPoint, q ∈ (ascentObserve ctx st).points →
        q ∈ st.points ∨ q.phase ≠ FlightPhase.descent := by
      intro q hq
      rw [ascentObserve_points] at hq
      by_cases hc : ascentSampleCond ctx.timeStep st.t
      · rw [if_pos hc] at hq
        rcases List.mem_append.1 hq with h | h
        · exact Or.inl h
        · have hqe : q = mkAscentPoint ctx.input.rocket.motorBurnTime st := by simpa using h
          subst hqe
          exact Or.inr (mkAscentPoint_phase _ _)
      · rw [if_neg hc] at hq
        exact Or.inl hq
    split at hp
    · exact hobs p hp
    · rcases ih (ascentPhysics ctx (ascentObserve ctx st)) p hp with h | h
      · rw [ascentPhysics_points] at h
        exact hobs p h
      · exact Or.inr h

/-- No point produced by `calculateAscent` carries phase `descent`. -/
theorem calculateAscent_no_descent_phase (input : AscentInput) :
    ∀ p ∈ (calculateAscent input).trajectoryPoints, p.phase ≠ FlightPhase.descent := by
  intro p hp
  simp only [calculateAscent] at hp
  rcases List.mem_append.1 hp with h | h
  · rcases ascentLoop_points_phase (ascentCtxOf input) 10000 (ascentInitialState input) p h
      with h0 | h0
    · simp [ascentInitialState] at h0
    · exact h0
  · rw [List.mem_singleton] at h
    rw [h]
    simp

/-- Every point produced by `calculateDescent` carries phase `descent`. -/
theorem calculateDescent_all_descent_phase (input : DescentInput) :
    ∀ p ∈ (calculateDescent input).trajectoryPoints, p.phase = FlightPhase.descent := by
  intro p hp
  simp only [calculateDescent] at hp
  rcases List.mem_append.1 hp with h | h
  · rcases descentLoop_points_phase input (input.timeStep.getD 0.05)
        (getRecoveryDragParams input.recovery input.rocketDiameter input.rocketCd).1
        (getRecoveryDragParams input.recovery input.rocketDiameter input.rocketCd).2
        10000 (descentInitialState input) p h with h0 | h0
    · simp [descentInitialState] at h0
    · exact h0
  · rw [List.mem_singleton] at h
    rw [h]

/-- `calculateDescent` always emits at least one point. -/
theorem calculateDescent_points_ne_nil (input : DescentInput) :
    (calculateDescent input).trajectoryPoints ≠ [] := by
  simp only [calculateDescent]
  intro h
  simp at h

/-- `find?` returns the head when every element satisfies the test. -/
theorem find?_eq_head?_of_all {α : Type} (pred : α → Bool) (l : List α)
    (hall : ∀ x ∈ l, pred x) : l.find? pred = l.head? := by
  cases l with
  | nil => rfl
  | cons a t => simp [List.find?_cons_of_pos, hall a (by simp)]


theorem h10000 : (10000 : ℕ) = 9999 + 1 := by norm_num

/-- The first point of a `calculateDescent` run that actually enters the
loop has time `startTime` exactly when the 0.2 s sampling test accepts
`startTime`. -/
theorem calculateDescent_head_time_iff (input : DescentInput)
    (hts : 0 < input.timeStep.getD 0.05)
    (hz : input.groundLevel < input.startPosition.z) :
    ((calculateDescent input).trajectoryPoints.head?.map (fun p => p.time)
        = some input.startTime)
      ↔ descentSampleCond (input.timeStep.getD 0.05) input.startTime := by
  constructor
  · intro h
    obtain ⟨p, hp, hpt⟩ := Option.map_eq_some'.1 h
    simp only [calculateDescent] at hp
    cases hl : (descentLoop input (input.timeStep.getD 0.05)
        (getRecoveryDragParams input.recovery input.rocketDiameter input.rocketCd).1
        (getRecoveryDragParams input.recovery input.rocketDiameter input.rocketCd).2
        10000 (descentInitialState input)).points with
    | nil =>
      rw [hl] at hp
      simp only [List.nil_append, List.head?_cons, Option.some.injEq] at hp
      have hptime : p.time = (descentLoop input (input.timeStep.getD 0.05)
          (getRecoveryDragParams input.recovery input.rocketDiameter input.rocketCd).1
          (getRecoveryDragParams input.recovery input.rocketDiameter input.rocketCd).2
          10000 (descentInitialState input)).t := by
        rw [← hp]
      have hent := descentLoop_t_entered input (input.timeStep.getD 0.05)
        (getRecoveryDragParams input.recovery input.rocketDiameter input.rocketCd).1
        (getRecoveryDragParams input.recovery input.rocketDiameter input.rocketCd).2
        hts.le 9999 (descentInitialState input) hz
      rw [← h10000] at hent
      exfalso
      have hst : (descentInitialState input).t = input.startTime := rfl
      rw [hst] at hent
      rw [hpt] at hptime
      linarith [hent, hptime.symm.le]
    | cons a l =>
      rw [hl] at hp
      simp only [List.cons_append, List.head?_cons, Option.some.injEq] at hp
      have hmem : a ∈ (descentLoop input (input.timeStep.getD 0.05)
          (getRecoveryDragParams input.recovery input.rocketDiameter input.rocketCd).1
          (getRecoveryDragParams input.recovery input.rocketDiameter input.rocketCd).2
          10000 (descentInitialState input)).points := by
        rw [hl]
        exact List.mem_cons_self a l
      rcases descentLoop_points_mem input (input.timeStep.getD 0.05)
          (getRecoveryDragParams input.recovery input.rocketDiameter input.rocketCd).1
          (getRecoveryDragParams input.recovery input.rocketDiameter input.rocketCd).2
          hts.le 10000 (descentInitialState input) a hmem with h0 | ⟨hle0, hc0⟩
      · simp [descentInitialState] at h0
      · rw [hp, hpt] at hc0
        exact hc0
  · intro hc
    have hhead := descentLoop_head_of_cond input (input.timeStep.getD 0.05)
      (getRecoveryDragParams input.recovery input.rocketDiameter input.rocketCd).1
      (getRecoveryDragParams input.recovery input.rocketDiameter input.rocketCd).2
      9999 (descentInitialState input) hz hc rfl
    rw [← h10000] at hhead
    simp only [calculateDescent]
    rw [List.head?_append, hhead]
    simp [mkDescentPoint, descentInitialState]


theorem jsMod_49_02 : jsMod 4.9 0.2 = 0.1 := by
  have hq : (4.9 : ℝ) / 0.2 = 24.5 := by norm_num
  have hf : ⌊(4.9 : ℝ) / 0.2⌋ = 24 := by
    rw [hq, Int.floor_eq_iff]
    constructor <;> norm_num
  rw [jsMod_eval 4.9 0.2 24 (by norm_num) hf]
  norm_num

/-- C2 counterexample: seeding the descent at time 4.9 (a time the ascent
integrator can produce: 245 steps of the default 0.02 s) with altitude
above ground, the first recorded descent point does NOT carry the seed
(apogee) time, because `|4.9 % 0.2| = 0.1` fails the sampling test. -/
theorem descent_first_point_time_not_start_time :
    ((calculateDescent (descentInputAt 4.9)).trajectoryPoints.head?.map (fun p => p.time))
      ≠ some (4.9 : ℝ) := by
  intro h
  have hiff := calculateDescent_head_time_iff (descentInputAt 4.9)
    (by norm_num [descentInputAt]) (by norm_num [descentInputAt])
  have hc := hiff.1 h
  have hts : (descentInputAt 4.9).timeStep.getD 0.05 = 0.05 := rfl
  have hst : (descentInputAt 4.9).startTime = (4.9 : ℝ) := rfl
  rw [hts, hst] at hc
  rw [descentSampleCond, jsMod_49_02] at hc
  rw [abs_of_pos (by norm_num)] at hc
  norm_num at hc

/-- C2 (amended): (a) in the trajectory assembled by `calculateTrajectory`
the first point with phase `descent` is the first point of the descent
result, which is seeded at exactly the ascent apogee time; (b) for a
descent that actually enters the loop, that first point's time equals the
seed time precisely when the seed time passes the 0.2 s sampling test
`|startTime % 0.2| < timeStep / 2` (otherwise the first descent point is
recorded at a later sampling instant). -/
theorem descent_phase_start_sampling :
    (∀ input : TrajectoryInput,
        (calculateTrajectory input).trajectoryPoints.find?
            (fun p => decide (p.phase = FlightPhase.descent))
          = (calculateDescent (descentInputOf input)).trajectoryPoints.head?
        ∧ (descentInputOf input).startTime
            = (calculateAscent (ascentInputOf input)).apogee.time)
    ∧ (∀ input : DescentInput, 0 < input.timeStep.getD 0.05 →
        input.groundLevel < input.startPosition.z →
        (((calculateDescent input).trajectoryPoints.head?.map (fun p => p.time)
            = some input.startTime)
          ↔ descentSampleCond (input.timeStep.getD 0.05) input.startTime)) := by
  constructor
  · intro input
    constructor
    · simp only [calculateTrajectory]
      rw [List.find?_append]
      have hnone : (calculateAscent (ascentInputOf input)).trajectoryPoints.find?
          (fun p => decide (p.phase = FlightPhase.descent)) = none := by
        rw [List.find?_eq_none]
        intro x hx
        simpa using calculateAscent_no_descent_phase (ascentInputOf input) x hx
      rw [hnone]
      simp only [Option.none_or]
      exact find?_eq_head?_of_all _ _ (fun x hx => by
        simpa using calculateDescent_all_descent_phase (descentInputOf input) x hx)
    · rfl
  · exact fun input h1 h2 => calculateDescent_head_time_iff input h1 h2

theorem descent_phase_start_sampling_witness :
    ((calculateTrajectory sampleTrajectoryInput).trajectoryPoints.find?
        (fun p => decide (p.phase = FlightPhase.descent))
      = (calculateDescent (descentInputOf sampleTrajectoryInput)).trajectoryPoints.head?)
    ∧ (((calculateDescent (descentInputAt 0)).trajectoryPoints.head?.map (fun p => p.time)
        = some (0 : ℝ))
      ↔ descentSampleCond (0.05 : ℝ) (0 : ℝ)) := by
  constructor
  · exact (descent_phase_start_sampling.1 sampleTrajectoryInput).1
  · have h := descent_phase_start_sampling.2 (descentInputAt 0)
      (by norm_num [descentInputAt]) (by norm_num [descentInputAt])
    simpa [descentInputAt] using h

/-- C5: the last point of `calculateDescent`'s sequence has `position.z`
exactly equal to `groundLevel`, and hence the last point of the assembled
`calculateTrajectory` sequence sits exactly at the launch elevation. -/
theorem trajectory_final_point_at_ground_level :
    (∀ input : DescentInput,
        (calculateDescent input).trajectoryPoints.getLast?.map (fun p => p.position.z)
          = some input.groundLevel)
    ∧ (∀ input : TrajectoryInput,
        (calculateTrajectory input).trajectoryPoints.getLast?.map (fun p => p.position.z)
          = some input.launchSite.elevation) := by
  have hd : ∀ input : DescentInput,
      (calculateDescent input).trajectoryPoints.getLast?.map (fun p => p.position.z)
        = some input.groundLevel := by
    intro input
    simp only [calculateDescent]
    rw [List.getLast?_concat]
    rfl
  refine ⟨hd, fun input => ?_⟩
  simp only [calculateTrajectory]
  rw [List.getLast?_append_of_ne_nil _ (calculateDescent_points_ne_nil (descentInputOf input))]
  exact hd (descentInputOf input)


/-! ### Lemmas for the layered wind profile -/

theorem head_le_of_getElem (a : WindLayer) (tl : List WindLayer) (j : ℕ) (x : WindLayer)
    (hp : (a :: tl).Pairwise (fun u v => u.altitude < v.altitude))
    (h : (a :: tl)[j]? = some x) : a.altitude ≤ x.altitude := by
  cases j with
  | zero =>
    simp only [List.getElem?_cons_zero, Option.some.injEq] at h
    rw [h]
  | succ m =>
    have hx : x ∈ tl := List.getElem?_mem (by simpa using h)
    exact (List.rel_of_pairwise_cons hp hx).le

theorem le_getLast_of_getElem :
    ∀ (l : List WindLayer) (hne : l ≠ []) (j : ℕ) (x : WindLayer),
      l.Pairwise (fun u v => u.altitude < v.altitude) → l[j]? = some x →
      x.altitude ≤ (l.getLast hne).altitude := by
  intro l
  induction l with
  | nil => intro hne; exact absurd rfl hne
  | cons a tl ih =>
    intro hne j x hp h
    cases tl with
    | nil =>
      cases j with
      | zero =>
        simp only [List.getElem?_cons_zero, Option.some.injEq] at h
        rw [← h]
        simp [List.getLast]
      | succ m => simp at h
    | cons b tl2 =>
      have hgl : (a :: b :: tl2).getLast hne = (b :: tl2).getLast (by simp) :=
        List.getLast_cons (by simp)
      rw [hgl]
      cases j with
      | zero =>
        simp only [List.getElem?_cons_zero, Option.some.injEq] at h
        rw [← h]
        exact (List.rel_of_pairwise_cons hp (List.getLast_mem (by simp))).le
      | succ m =>
        exact ih (by simp) m x hp.of_cons (by simpa using h)

/-- The layer-pair scan finds exactly the bracketing adjacent pair. -/
theorem findSegment_of_get :
    ∀ (i : ℕ) (layers : List WindLayer) (alt : ℝ) (lower upper : WindLayer),
      layers.Pairwise (fun u v => u.altitude < v.altitude) →
      layers[i]? = some lower → layers[i + 1]? = some upper →
      lower.altitude < alt → alt ≤ upper.altitude →
      findSegment layers alt = some (lower, upper) := by
  intro i
  induction i with
  | zero =>
    intro layers alt lower upper hp h1 h2 hlo hup
    cases layers with
    | nil => simp at h1
    | cons a tl =>
      cases tl with
      | nil => simp at h2
      | cons b tl2 =>
        simp only [List.getElem?_cons_zero, Option.some.injEq] at h1
        have h2b : b = upper := by simpa using h2
        subst h1
        subst h2b
        rw [findSegment, if_pos ⟨hlo.le, hup⟩]
  | succ n ih =>
    intro layers alt lower upper hp h1 h2 hlo hup
    cases layers with
    | nil => simp at h1
    | cons a tl =>
      cases tl with
      | nil => simp at h1
      | cons b tl2 =>
        have h1b : (b :: tl2)[n]? = some lower := by simpa using h1
        have h2b : (b :: tl2)[n + 1]? = some upper := by simpa using h2
        have hble : b.altitude ≤ lower.altitude :=
          head_le_of_getElem b tl2 n lower hp.of_cons h1b
        rw [findSegment, if_neg]
        · exact ih (b :: tl2) alt lower upper hp.of_cons h1b h2b hlo hup
        · intro hcon
          exact absurd hcon.2 (not_le.2 (lt_of_le_of_lt hble hlo))

/-- Branch selection: strictly between two adjacent layers of a sorted
list, `layeredGetWind` returns the interpolation of exactly that pair. -/
theorem layeredGetWind_eq_interpolate (s d alt : ℝ) (layers : List WindLayer)
    (i : ℕ) (lower upper : WindLayer)
    (hp : layers.Pairwise (fun u v => u.altitude < v.altitude))
    (h1 : layers[i]? = some lower) (h2 : layers[i + 1]? = some upper)
    (hlo : lower.altitude < alt) (hup : alt < upper.altitude) :
    layeredGetWind s d layers alt = interpolateSegment lower upper alt := by
  cases layers with
  | nil => simp at h1
  | cons first rest =>
    have hfirst : first.altitude ≤ lower.altitude :=
      head_le_of_getElem first rest i lower hp h1
    have htop : upper.altitude ≤ ((first :: rest).getLast (by simp)).altitude :=
      le_getLast_of_getElem (first :: rest) (by simp) (i + 1) upper hp h2
    simp only [layeredGetWind]
    rw [if_neg (not_le.2 (lt_of_le_of_lt hfirst hlo))]
    rw [if_neg (not_le.2 (lt_of_lt_of_le hup htop))]
    rw [findSegment_of_get i (first :: rest) alt lower upper hp h1 h2 hlo hup.le]

/-- `a % b` after adding one full period, on values above `-b`. -/
theorem jsMod_add_period (x : ℝ) (hx : -360 ≤ x) :
    jsMod (x + 360) 360 = mathMod x 360 := by
  rw [jsMod_of_nonneg _ _ (div_nonneg (by linarith) (by norm_num))]
  rw [mathMod, mathMod]
  have hq : (x + 360) / 360 = x / 360 + 1 := by ring
  rw [hq, Int.floor_add_one]
  push_cast
  ring


theorem interp_direction_props (lo ratio dd : ℝ) (hlo0 : 0 ≤ lo) (hr0 : 0 ≤ ratio)
    (hr1 : ratio ≤ 1) (hdd : |dd| ≤ 180) :
    jsMod (lo + ratio * dd + 360) 360 = mathMod (lo + ratio * dd) 360
    ∧ 0 ≤ mathMod (lo + ratio * dd) 360 ∧ mathMod (lo + ratio * dd) 360 < 360 := by
  have hrd : -180 ≤ ratio * dd := by
    nlinarith [(abs_le.1 hdd).1, (abs_le.1 hdd).2]
  exact ⟨jsMod_add_period _ (by linarith), mathMod_nonneg _ _ (by norm_num),
    mathMod_lt _ _ (by norm_num)⟩

theorem jsMod_720_360 : jsMod (720 : ℝ) 360 = 0 := by
  have hq : (720 : ℝ) / 360 = 2 := by norm_num
  have hf : ⌊(720 : ℝ) / 360⌋ = 2 := by
    rw [hq]
    exact_mod_cast Int.floor_intCast (α := ℝ) 2
  rw [jsMod_eval 720 360 2 (by norm_num) hf]
  norm_num

/-- C4: between two adjacent layers of the sorted layered wind profile
(directions in `[0, 360)`), the interpolated direction is
`(lower.dir + ratio * dd) mod 360` where `dd ≡ upper.dir - lower.dir
(mod 360)` and `|dd| ≤ 180` — the shorter angular path — and the result
lies in `[0, 360)`; in particular, interpolating 350° to 10° at the
midpoint yields 0°, not 180°. -/
theorem layered_direction_shortest_path :
    (∀ (s d alt : ℝ) (layers : List WindLayer) (i : ℕ) (lower upper : WindLayer),
      layers.Pairwise (fun u v => u.altitude < v.altitude) →
      layers[i]? = some lower → layers[i + 1]? = some upper →
      0 ≤ lower.windDirection → lower.windDirection < 360 →
      0 ≤ upper.windDirection → upper.windDirection < 360 →
      lower.altitude < alt → alt < upper.altitude →
      layeredGetWind s d layers alt = interpolateSegment lower upper alt
      ∧ ∃ dd : ℝ, |dd| ≤ 180
          ∧ (∃ k : ℤ, dd = upper.windDirection - lower.windDirection + 360 * k)
          ∧ (interpolateSegment lower upper alt).direction =
              mathMod (lower.windDirection +
                (alt - lower.altitude) / (upper.altitude - lower.altitude) * dd) 360
          ∧ 0 ≤ (interpolateSegment lower upper alt).direction
          ∧ (interpolateSegment lower upper alt).direction < 360)
    ∧ createLayeredWindProfile 3 350 (some [⟨100, 3, 10⟩]) 50 = ⟨3, 0⟩ := by
  constructor
  · intro s d alt layers i lower upper hp h1 h2 hld0 hld1 hud0 hud1 hlo hup
    refine ⟨layeredGetWind_eq_interpolate s d alt layers i lower upper hp h1 h2 hlo hup, ?_⟩
    have hr0 : 0 ≤ (alt - lower.altitude) / (upper.altitude - lower.altitude) :=
      div_nonneg (by linarith) (by linarith)
    have hr1 : (alt - lower.altitude) / (upper.altitude - lower.altitude) ≤ 1 :=
      (div_le_one (by linarith)).2 (by linarith)
    by_cases hgt : upper.windDirection - lower.windDirection > 180
    · have hno2 : ¬ (upper.windDirection - lower.windDirection - 360 < -180) := by linarith
      have heq : (interpolateSegment lower upper alt).direction =
          jsMod (lower.windDirection +
            (alt - lower.altitude) / (upper.altitude - lower.altitude) *
              (upper.windDirection - lower.windDirection - 360) + 360) 360 := by
        simp only [interpolateSegment]
        rw [if_pos hgt, if_neg hno2]
      have habs : |upper.windDirection - lower.windDirection - 360| ≤ 180 := by
        rw [abs_le]
        constructor <;> linarith
      have hprops := interp_direction_props lower.windDirection
        ((alt - lower.altitude) / (upper.altitude - lower.altitude))
        (upper.windDirection - lower.windDirection - 360) hld0 hr0 hr1 habs
      refine ⟨upper.windDirection - lower.windDirection - 360, habs,
        ⟨-1, by push_cast; ring⟩, ?_, ?_, ?_⟩
      · rw [heq]
        exact hprops.1
      · rw [heq, hprops.1]
        exact hprops.2.1
      · rw [heq, hprops.1]
        exact hprops.2.2
    · by_cases hlt : upper.windDirection - lower.windDirection < -180
      · have heq : (interpolateSegment lower upper alt).direction =
            jsMod (lower.windDirection +
              (alt - lower.altitude) / (upper.altitude - lower.altitude) *
                (upper.windDirection - lower.windDirection + 360) + 360) 360 := by
          simp only [interpolateSegment]
          rw [if_neg hgt, if_pos hlt]
        have habs : |upper.windDirection - lower.windDirection + 360| ≤ 180 := by
          rw [abs_le]
          constructor <;> linarith
        have hprops := interp_direction_props lower.windDirection
          ((alt - lower.altitude) / (upper.altitude - lower.altitude))
          (upper.windDirection - lower.windDirection + 360) hld0 hr0 hr1 habs
        refine ⟨upper.windDirection - lower.windDirection + 360, habs,
          ⟨1, by push_cast; ring⟩, ?_, ?_, ?_⟩
        · rw [heq]
          exact hprops.1
        · rw [heq, hprops.1]
          exact hprops.2.1
        · rw [heq, hprops.1]
          exact hprops.2.2
      · have heq : (interpolateSegment lower upper alt).direction =
            jsMod (lower.windDirection +
              (alt - lower.altitude) / (upper.altitude - lower.altitude) *
                (upper.windDirection - lower.windDirection) + 360) 360 := by
          simp only [interpolateSegment]
          rw [if_neg hgt, if_neg hlt]
        have habs : |upper.windDirection - lower.windDirection| ≤ 180 := by
          rw [abs_le]
          constructor <;> linarith
        have hprops := interp_direction_props lower.windDirection
          ((alt - lower.altitude) / (upper.altitude - lower.altitude))
          (upper.windDirection - lower.windDirection) hld0 hr0 hr1 habs
        refine ⟨upper.windDirection - lower.windDirection, habs,
          ⟨0, by push_cast; ring⟩, ?_, ?_, ?_⟩
        · rw [heq]
          exact hprops.1
        · rw [heq, hprops.1]
          exact hprops.2.1
        · rw [heq, hprops.1]
          exact hprops.2.2
  · have h350 : createLayeredWindProfile 3 350 (some [⟨100, 3, 10⟩]) 50 =
        layeredGetWind 3 350 [⟨0, 3, 350⟩, ⟨100, 3, 10⟩] 50 := by
      simp only [createLayeredWindProfile, List.isEmpty_cons, Bool.false_eq_true, if_false]
      norm_num [List.insertionSort, List.orderedInsert]
    rw [h350]
    have hseg : findSegment [⟨0, 3, 350⟩, ⟨100, 3, 10⟩] 50 =
        some (⟨0, 3, 350⟩, ⟨100, 3, 10⟩) := by
      rw [findSegment, if_pos]
      constructor <;> norm_num
    simp only [layeredGetWind]
    rw [if_neg (by norm_num), if_neg (by norm_num [List.getLast]), hseg]
    simp only [interpolateSegment]
    norm_num
    exact jsMod_720_360


theorem layered_direction_shortest_path_witness :
    (layeredGetWind 3 350 [⟨0, 3, 350⟩, ⟨100, 3, 10⟩] 50 =
        interpolateSegment ⟨0, 3, 350⟩ ⟨100, 3, 10⟩ 50
      ∧ ∃ dd : ℝ, |dd| ≤ 180
          ∧ (∃ k : ℤ, dd = (10 : ℝ) - 350 + 360 * k)
          ∧ (interpolateSegment ⟨0, 3, 350⟩ ⟨100, 3, 10⟩ 50).direction =
              mathMod (350 + ((50 : ℝ) - 0) / (100 - 0) * dd) 360
          ∧ 0 ≤ (interpolateSegment ⟨0, 3, 350⟩ ⟨100, 3, 10⟩ 50).direction
          ∧ (interpolateSegment ⟨0, 3, 350⟩ ⟨100, 3, 10⟩ 50).direction < 360)
    ∧ createLayeredWindProfile 3 350 (some [⟨100, 3, 10⟩]) 50 = ⟨3, 0⟩ := by
  constructor
  · exact layered_direction_shortest_path.1 3 350 50 [⟨0, 3, 350⟩, ⟨100, 3, 10⟩] 0
      ⟨0, 3, 350⟩ ⟨100, 3, 10⟩ (by norm_num [List.pairwise_cons]) rfl rfl
      (by norm_num) (by norm_num) (by norm_num) (by norm_num) (by norm_num) (by norm_num)
  · exact layered_direction_shortest_path.2

end
